import Mathlib

/-!
Verification of the File-Transfer-With-Meta-Data repository.

Shallow embedding of `src/client.py` and `src/server.py`.  Bytes are
modelled as `Nat` (values below 256 in well-formed data), byte strings as
`List Nat`, and Python `str` values by their UTF-8 byte encoding.  Python
exceptions (`struct.error`, `UnicodeDecodeError`) are modelled with
`Except PyErr`.  The SHAKE-128 extendable-output function provided by the
`hashlib` library (external to the repository) is modelled abstractly as a
function parameter `X : List Nat → Nat → List Nat` together with the
library's guarantee `(X data n).length = n`.
-/

/-- Python errors raised by the code paths we model: `struct.error` from
`struct.unpack`/`struct.pack`, and `UnicodeDecodeError` from `bytes.decode`. -/
inductive PyErr where
  | structError : PyErr
  | unicodeError : PyErr
deriving DecidableEq, Repr

/-- Normalisation of a Python slice index for a sequence of length `len`:
negative indices count from the end, and indices are clamped to `[0, len]`. -/
def pyIdx (len : Nat) (i : Int) : Nat :=
  if i < 0 then ((len : Int) + i).toNat else min i.toNat len

/-- Python slicing `data[a:b]` (step 1) on byte strings.  Note `-0 = 0`, so
`data[-0:]` is the whole sequence and `data[:-0]` is empty, exactly as in
Python. -/
def pySlice (data : List Nat) (a b : Int) : List Nat :=
  (data.take (pyIdx data.length b)).drop (pyIdx data.length a)

/-- A UTF-8 continuation byte `10xxxxxx`. -/
def utf8Cont (b : Nat) : Bool :=
  128 ≤ b && b < 192

/-- Validity of a byte string as strict UTF-8, as checked by Python's
`bytes.decode("utf-8")`: rejects stray continuation bytes, overlong
encodings, surrogates (U+D800..U+DFFF) and code points above U+10FFFF. -/
def utf8Valid : List Nat → Bool
  | [] => true
  | b :: rest =>
    if b < 128 then utf8Valid rest
    else if b < 194 then false
    else if b < 224 then
      match rest with
      | c1 :: r => utf8Cont c1 && utf8Valid r
      | [] => false
    else if b = 224 then
      match rest with
      | c1 :: c2 :: r => (160 ≤ c1 && c1 < 192) && utf8Cont c2 && utf8Valid r
      | _ => false
    else if b < 237 then
      match rest with
      | c1 :: c2 :: r => utf8Cont c1 && utf8Cont c2 && utf8Valid r
      | _ => false
    else if b = 237 then
      match rest with
      | c1 :: c2 :: r => (128 ≤ c1 && c1 < 160) && utf8Cont c2 && utf8Valid r
      | _ => false
    else if b < 240 then
      match rest with
      | c1 :: c2 :: r => utf8Cont c1 && utf8Cont c2 && utf8Valid r
      | _ => false
    else if b = 240 then
      match rest with
      | c1 :: c2 :: c3 :: r =>
        (144 ≤ c1 && c1 < 192) && utf8Cont c2 && utf8Cont c3 && utf8Valid r
      | _ => false
    else if b < 244 then
      match rest with
      | c1 :: c2 :: c3 :: r =>
        utf8Cont c1 && utf8Cont c2 && utf8Cont c3 && utf8Valid r
      | _ => false
    else if b = 244 then
      match rest with
      | c1 :: c2 :: c3 :: r =>
        (128 ≤ c1 && c1 < 144) && utf8Cont c2 && utf8Cont c3 && utf8Valid r
      | _ => false
    else false

/-- Python `bytes.decode("utf-8")`; the resulting `str` is represented by
its UTF-8 byte encoding, so a successful decode returns the bytes. -/
def pyDecodeUtf8 (s : List Nat) : Except PyErr (List Nat) :=
  if utf8Valid s then .ok s else .error .unicodeError

/-- `struct.unpack("!HBB", s)`: requires exactly 4 bytes; big-endian u16
followed by two u8. -/
def unpack_HBB (s : List Nat) : Except PyErr (Nat × Nat × Nat) :=
  match s with
  | [b0, b1, b2, b3] => .ok (256 * b0 + b1, b2, b3)
  | _ => .error .structError

/-- `struct.unpack("!IB", s)`: requires exactly 5 bytes; big-endian u32
followed by one u8. -/
def unpack_IB (s : List Nat) : Except PyErr (Nat × Nat) :=
  match s with
  | [b0, b1, b2, b3, b4] => .ok (((b0 * 256 + b1) * 256 + b2) * 256 + b3, b4)
  | _ => .error .structError

/-- `struct.unpack("!I", s)`: requires exactly 4 bytes; big-endian u32. -/
def unpack_I (s : List Nat) : Except PyErr Nat :=
  match s with
  | [b0, b1, b2, b3] => .ok (((b0 * 256 + b1) * 256 + b2) * 256 + b3)
  | _ => .error .structError

/-- Big-endian u16 as produced by `struct.pack("!H", n)` for in-range `n`. -/
def pack_u16be (n : Nat) : List Nat :=
  [n / 256, n % 256]

/-- Big-endian u32 as produced by `struct.pack("!I", n)` for in-range `n`. -/
def pack_u32be (n : Nat) : List Nat :=
  [n / 16777216, n / 65536 % 256, n / 256 % 256, n % 256]

/-- `calcsize("!HBB")` in `FileTransferServer.unpack_metadata`. -/
def metadata_size : Nat := 4

/-- The byte string produced by the `struct.pack` call in
`FileTransferClient.encode_metadata` with format
`!HBB{n}s{e}s{c}sIB`: lengths header, the three strings, the declared file
size and the digest length. -/
def metadata_bytes (filename file_extension created_date : List Nat)
    (file_size hash_length : Nat) : List Nat :=
  pack_u16be filename.length ++ [file_extension.length, created_date.length] ++
    filename ++ file_extension ++ created_date ++ pack_u32be file_size ++ [hash_length]

/-- `FileTransferClient.encode_metadata`, as a function of the file's
metadata values (the Python method obtains them from the filesystem and
`self.hash_length`).  `struct.pack` raises `struct.error` when a field does
not fit its format code. -/
def encode_metadata (filename file_extension created_date : List Nat)
    (file_size hash_length : Nat) : Except PyErr (List Nat) :=
  if filename.length < 65536 ∧ file_extension.length < 256 ∧
      created_date.length < 256 ∧ file_size < 4294967296 ∧ hash_length < 256 then
    .ok (metadata_bytes filename file_extension created_date file_size hash_length)
  else
    .error .structError

/-- `FileTransferServer.unpack_metadata`: parses the lengths header, the
three UTF-8 strings, the declared `file_size` and `hash_length`, and takes
`file_data` as everything between the end of the metadata fields and the
last `hash_length` bytes (`data[... + 5 : -hash_length]`). -/
def unpack_metadata (data : List Nat) :
    Except PyErr (List Nat × List Nat × List Nat × Nat × Nat × List Nat) :=
  match unpack_HBB (pySlice data 0 (metadata_size : Int)) with
  | .error e => .error e
  | .ok (filename_length, file_extension_length, created_length) =>
    match pyDecodeUtf8 (pySlice data (metadata_size : Int)
        ((metadata_size + filename_length : Nat) : Int)) with
    | .error e => .error e
    | .ok filename =>
      match pyDecodeUtf8 (pySlice data ((metadata_size + filename_length : Nat) : Int)
          ((metadata_size + filename_length + file_extension_length : Nat) : Int)) with
      | .error e => .error e
      | .ok file_extension =>
        match pyDecodeUtf8 (pySlice data
            ((metadata_size + filename_length + file_extension_length : Nat) : Int)
            ((metadata_size + filename_length + file_extension_length +
              created_length : Nat) : Int)) with
        | .error e => .error e
        | .ok created =>
          match unpack_IB (pySlice data
              ((metadata_size + filename_length + file_extension_length +
                created_length : Nat) : Int)
              ((metadata_size + filename_length + file_extension_length +
                created_length + 5 : Nat) : Int)) with
          | .error e => .error e
          | .ok (file_size, hash_length) =>
            .ok (filename, file_extension, created, file_size, hash_length,
              pySlice data
                ((metadata_size + filename_length + file_extension_length +
                  created_length + 5 : Nat) : Int)
                (-(hash_length : Int)))

/-- State of a `hashlib.shake_128()` object: the bytes fed to `update` so
far.  The XOF mathematics itself is an external-library primitive, passed
around as a parameter `X`. -/
structure HashObj where
  buffer : List Nat
deriving DecidableEq, Repr

/-- `hashlib.shake_128()`: a fresh hash object with empty buffer. -/
def shake_128_new : HashObj := ⟨[]⟩

/-- `hash_obj.update(data)`: appends the data to the absorbed buffer. -/
def HashObj.update (h : HashObj) (data : List Nat) : HashObj :=
  ⟨h.buffer ++ data⟩

/-- `hash_obj.digest(n)`: the `n`-byte XOF output over the absorbed bytes,
where `X` models the SHAKE-128 mathematics. -/
def HashObj.digest (X : List Nat → Nat → List Nat) (h : HashObj) (n : Nat) : List Nat :=
  X h.buffer n

/-- `FileTransferClient.compute_hash`: `shake_128()`, `update(data)`,
`digest(self.hash_length)`. -/
def client_compute_hash (X : List Nat → Nat → List Nat) (hash_length : Nat)
    (data : List Nat) : List Nat :=
  (shake_128_new.update data).digest X hash_length

/-- `FileTransferServer.compute_hash`: `shake_128()`, `update(data)`,
`digest(hash_length)`. -/
def server_compute_hash (X : List Nat → Nat → List Nat) (data : List Nat)
    (hash_length : Nat) : List Nat :=
  (shake_128_new.update data).digest X hash_length

/-- Observable server-side state: the `received_files` directory (name ↦
contents, written by `write_file`), the acknowledgment bytes written back
to client sockets (`sendall`), and the `is_running` flag. -/
structure ServerState where
  files : List (List Nat × List Nat)
  sent : List (List Nat)
  is_running : Bool
deriving DecidableEq, Repr

/-- `FileTransferServer.write_file`: persists `data` under `filename` in
`received_files`, overwriting any file of the same name. -/
def write_file (files : List (List Nat × List Nat)) (filename data : List Nat) :
    List (List Nat × List Nat) :=
  (filename, data) :: files.filter (fun p => p.1 ≠ filename)

/-- `FileTransferServer.shutdown`: sets `is_running` to `False` (and closes
the listening socket, ending the accept loop). -/
def shutdown (st : ServerState) : ServerState :=
  { st with is_running := false }

/-- Result of one `receive_data` call: the first `recv(4)` returned no
bytes (the method returns `None`); an exception was raised (the method
calls `self.shutdown()` and returns `None`); or a buffer was returned. -/
inductive RecvOutcome where
  | sizeFail : RecvOutcome
  | errorOut : RecvOutcome
  | gotData : List Nat → RecvOutcome
deriving DecidableEq, Repr

/-- The chunked accumulation loop of `FileTransferServer.receive_data`:
`while len(received) < data_size`, request `min(4096, data_size -
len(received))` bytes; an empty chunk (closed connection) breaks the loop.
`recvO k n` models the `k`-th `recv(n)` call on the socket.  Returns the
trace of `(len(received) before the call, bytes requested)` pairs together
with the final accumulated buffer.  `fuel` bounds the recursion; since every
continuing iteration appends at least one byte, `data_size + 1` steps always
reach the Python loop's exit. -/
def receive_loop (recvO : Nat → Nat → List Nat) (data_size : Nat) :
    Nat → Nat → List Nat → List (Nat × Nat) × List Nat
  | 0, _, received => ([], received)
  | fuel + 1, k, received =>
    if received.length < data_size then
      let chunk_size := min 4096 (data_size - received.length)
      let chunk := recvO k chunk_size
      if chunk = [] then
        ([(received.length, chunk_size)], received)
      else
        let rest := receive_loop recvO data_size fuel (k + 1) (received ++ chunk)
        ((received.length, chunk_size) :: rest.1, rest.2)
    else ([], received)

/-- `FileTransferServer.receive_data`: a single `recv(4)` for the size
field (empty ⇒ return `None`; fewer than 4 bytes ⇒ `struct.error`, caught by
the method's handler which shuts the server down and returns `None`), then
the accumulation loop, whose result is returned as-is — complete or not. -/
def receive_data (recvO : Nat → Nat → List Nat) : RecvOutcome :=
  let data_size_bytes := recvO 0 4
  if data_size_bytes = [] then .sizeFail
  else
    match unpack_I data_size_bytes with
    | .error _ => .errorOut
    | .ok data_size => .gotData (receive_loop recvO data_size (data_size + 1) 1 []).2

/-- Steps 3–6 of the inner loop of `FileTransferServer.run` on a received
buffer: `unpack_metadata`, recompute the SHAKE-128 digest of
`received_data[:-hash_length]` and compare it with
`received_data[-hash_length:]`; on match `write_file` and send the digest
back, on mismatch do nothing.  An exception from `unpack_metadata`
propagates to `run`'s handler, which calls `shutdown`.  The `Bool` is
whether the connection loop continues. -/
def processFrame (X : List Nat → Nat → List Nat) (st : ServerState)
    (received : List Nat) : ServerState × Bool :=
  match unpack_metadata received with
  | .error _ => (shutdown st, false)
  | .ok (filename, _file_extension, _created, _file_size, hash_length, file_data) =>
    let received_hash := pySlice received (-(hash_length : Int)) (received.length : Int)
    let combined_data := pySlice received 0 (-(hash_length : Int))
    let computed_hash := server_compute_hash X combined_data hash_length
    if computed_hash = received_hash then
      ({ st with files := write_file st.files filename file_data,
                 sent := st.sent ++ [computed_hash] }, true)
    else
      (st, true)

/-- One iteration of the inner `while self.is_running` loop of
`FileTransferServer.run`, given the outcome of `receive_data`: a falsy
result (`None` or an empty buffer) triggers `self.shutdown()` and `return`;
otherwise the buffer is handed to `processFrame`. -/
def server_step (X : List Nat → Nat → List Nat) (st : ServerState)
    (ro : RecvOutcome) : ServerState × Bool :=
  match ro with
  | .sizeFail => (shutdown st, false)
  | .errorOut => (shutdown st, false)
  | .gotData received =>
    if received = [] then (shutdown st, false)
    else processFrame X st received

/-- A concrete XOF model: `n` copies of the byte `v`, ignoring the input.
Used to instantiate the abstract SHAKE-128 parameter in witnesses. -/
def xofReplicate (v : Nat) : List Nat → Nat → List Nat :=
  fun _ n => List.replicate n v

/-- A freshly started server: no files received, nothing sent, running. -/
def st0 : ServerState := ⟨[], [], true⟩

/-- A transport that declares a 10-byte frame, delivers 3 bytes, then
closes (every later `recv` returns no bytes). -/
def recvClosesEarly : Nat → Nat → List Nat
  | 0, _ => [0, 0, 0, 10]
  | 1, _ => [1, 2, 3]
  | _, _ => []

/-- A transport that delivers the 4 size bytes of a 10-byte frame split as
2 + 2 across the first two reads. -/
def recvSplitSize : Nat → Nat → List Nat
  | 0, _ => [0, 0]
  | 1, _ => [0, 10]
  | _, _ => []

/-- A buffer whose declared `filename_length` (50) reads far past the end
of the 5-byte buffer, so the `!IB` unpack gets fewer than 5 bytes. -/
def malformedBuf : List Nat := [0, 50, 0, 0, 65]

/-- A well-formed buffer whose declared `file_size` field says 5 although
only 3 bytes lie between the metadata fields and the 1-byte digest:
header (1,0,0), name "A", size 5, hash_length 1, payload [1,2,3], digest [9]. -/
def sizeMismatchBuf : List Nat := [0, 1, 0, 0, 65, 0, 0, 0, 5, 1, 1, 2, 3, 9]

/-- A frame for name "A" with `file_size` 0, `hash_length` 0, no payload
and no digest bytes — structurally complete, transmitted uncorrupted. -/
def zeroHashBuf : List Nat := [0, 1, 0, 0, 65, 0, 0, 0, 0, 0]

/-- A frame for name "A" with a 1-byte payload `[7]` and a deliberately
wrong trailing digest byte `[0]`. -/
def mismatchBuf : List Nat := [0, 1, 0, 0, 65, 0, 0, 0, 1, 1, 7, 0]

/-- A transport that declares a 3-byte frame and delivers it whole in the
second read. -/
def recvThree : Nat → Nat → List Nat
  | 0, _ => [0, 0, 0, 3]
  | 1, _ => [8, 8, 8]
  | _, _ => []

/-- A transport that answers every read with at most 3 bytes (never more
than requested). -/
def recvDribble : Nat → Nat → List Nat :=
  fun _ n => List.replicate (min 3 n) 5

theorem pyIdx_ofNat (L a : Nat) : pyIdx L (a : Int) = min a L := by
  unfold pyIdx
  split <;> omega

theorem pyIdx_neg (L h : Nat) (h0 : 0 < h) : pyIdx L (-(h : Int)) = L - h := by
  unfold pyIdx
  split <;> omega

theorem list_slice_mid (A mid R : List Nat) (a b : Nat)
    (ha : a = A.length) (hb : b = A.length + mid.length) :
    ((A ++ (mid ++ R)).take b).drop a = mid := by
  subst ha; subst hb
  have h1 : (A ++ mid).length = A.length + mid.length := by simp
  rw [← List.append_assoc, List.take_left' h1, List.drop_left]

theorem pySlice_mid (A mid R : List Nat) (a b : Nat)
    (ha : a = A.length) (hb : b = A.length + mid.length) :
    pySlice (A ++ (mid ++ R)) (a : Int) (b : Int) = mid := by
  unfold pySlice
  rw [pyIdx_ofNat, pyIdx_ofNat]
  have ha' : min a (A ++ (mid ++ R)).length = a := by simp; omega
  have hb' : min b (A ++ (mid ++ R)).length = b := by simp; omega
  rw [ha', hb']
  exact list_slice_mid A mid R a b ha hb

theorem pySlice_to_negEnd (A mid R : List Nat) (a hl : Nat)
    (ha : a = A.length) (hR : R.length = hl) (h0 : 0 < hl) :
    pySlice (A ++ (mid ++ R)) (a : Int) (-(hl : Int)) = mid := by
  unfold pySlice
  rw [pyIdx_ofNat, pyIdx_neg _ _ h0]
  have ha' : min a (A ++ (mid ++ R)).length = a := by simp; omega
  have hb' : (A ++ (mid ++ R)).length - hl = A.length + mid.length := by simp; omega
  rw [ha', hb']
  exact list_slice_mid A mid R a _ ha rfl

theorem pySlice_negEnd (A R : List Nat) (hl : Nat)
    (hR : R.length = hl) (h0 : 0 < hl) :
    pySlice (A ++ R) (-(hl : Int)) ((A ++ R).length : Int) = R := by
  unfold pySlice
  rw [pyIdx_ofNat, pyIdx_neg _ _ h0]
  rw [Nat.min_self, List.take_length]
  have h2 : (A ++ R).length - hl = A.length := by simp; omega
  rw [h2, List.drop_left]

/-- Parsing a well-framed buffer: for any metadata strings, any declared
`file_size` value `fs`, any positive `hash_length` `hl`, any middle region
and any trailing `hl` bytes, `unpack_metadata` returns the original fields
and takes `file_data` to be exactly the middle region — regardless of
whether `fs` matches the middle region's length. -/
theorem unpack_metadata_of_frame
    (name fext created middle digest : List Nat) (fs hl : Nat)
    (hnv : utf8Valid name = true) (hev : utf8Valid fext = true)
    (hcv : utf8Valid created = true)
    (hfs : fs < 4294967296) (hhl0 : 0 < hl) (hd : digest.length = hl) :
    unpack_metadata (metadata_bytes name fext created fs hl ++ middle ++ digest) =
      .ok (name, fext, created, fs, hl, middle) := by
  set hdr : List Nat :=
    [name.length / 256, name.length % 256, fext.length, created.length] with hhdr
  set buf := metadata_bytes name fext created fs hl ++ middle ++ digest with hbuf
  have hshape0 : buf = [] ++ (hdr ++ (name ++ (fext ++ (created ++
      ((pack_u32be fs ++ [hl]) ++ (middle ++ digest)))))) := by
    simp [hbuf, hhdr, metadata_bytes, pack_u16be, List.append_assoc]
  have hshape1 : buf = hdr ++ (name ++ (fext ++ (created ++
      ((pack_u32be fs ++ [hl]) ++ (middle ++ digest))))) := by
    simpa using hshape0
  have hshape2 : buf = (hdr ++ name) ++ (fext ++ (created ++
      ((pack_u32be fs ++ [hl]) ++ (middle ++ digest)))) := by
    simp [hshape1, List.append_assoc]
  have hshape3 : buf = ((hdr ++ name) ++ fext) ++ (created ++
      ((pack_u32be fs ++ [hl]) ++ (middle ++ digest))) := by
    simp [hshape1, List.append_assoc]
  have hshape4 : buf = (((hdr ++ name) ++ fext) ++ created) ++
      ((pack_u32be fs ++ [hl]) ++ (middle ++ digest)) := by
    simp [hshape1, List.append_assoc]
  have hshape5 : buf = metadata_bytes name fext created fs hl ++ (middle ++ digest) := by
    simp [hbuf, List.append_assoc]
  have hs1 : pySlice buf 0 (metadata_size : Int) = hdr := by
    rw [hshape0]
    exact pySlice_mid _ _ _ 0 metadata_size (by simp)
      (by simp only [hhdr, metadata_size, List.length_nil, List.length_cons])
  have hu1 : unpack_HBB (pySlice buf 0 (metadata_size : Int)) =
      .ok (name.length, fext.length, created.length) := by
    rw [hs1, hhdr]
    show Except.ok (256 * (name.length / 256) + name.length % 256,
      fext.length, created.length) = _
    have harith : 256 * (name.length / 256) + name.length % 256 = name.length := by
      omega
    rw [harith]
  have hs2 : pySlice buf (metadata_size : Int)
      ((metadata_size + name.length : Nat) : Int) = name := by
    rw [hshape1]
    exact pySlice_mid _ _ _ _ _
      (by simp only [hhdr, metadata_size, List.length_cons, List.length_nil])
      (by simp only [hhdr, metadata_size, List.length_cons, List.length_nil])
  have hs3 : pySlice buf ((metadata_size + name.length : Nat) : Int)
      ((metadata_size + name.length + fext.length : Nat) : Int) = fext := by
    rw [hshape2]
    exact pySlice_mid _ _ _ _ _
      (by simp only [hhdr, metadata_size, List.length_append, List.length_cons,
        List.length_nil])
      (by simp only [hhdr, metadata_size, List.length_append, List.length_cons,
        List.length_nil])
  have hs4 : pySlice buf ((metadata_size + name.length + fext.length : Nat) : Int)
      ((metadata_size + name.length + fext.length + created.length : Nat) : Int) =
      created := by
    rw [hshape3]
    exact pySlice_mid _ _ _ _ _
      (by simp only [hhdr, metadata_size, List.length_append, List.length_cons,
        List.length_nil])
      (by simp only [hhdr, metadata_size, List.length_append, List.length_cons,
        List.length_nil])
  have hs5 : pySlice buf
      ((metadata_size + name.length + fext.length + created.length : Nat) : Int)
      ((metadata_size + name.length + fext.length + created.length + 5 : Nat) : Int) =
      pack_u32be fs ++ [hl] := by
    rw [hshape4]
    exact pySlice_mid _ _ _ _ _
      (by simp only [hhdr, metadata_size, List.length_append, List.length_cons,
        List.length_nil])
      (by simp only [hhdr, metadata_size, pack_u32be, List.length_append,
        List.length_cons, List.length_nil])
  have hu5 : unpack_IB (pySlice buf
      ((metadata_size + name.length + fext.length + created.length : Nat) : Int)
      ((metadata_size + name.length + fext.length + created.length + 5 : Nat) : Int)) =
      .ok (fs, hl) := by
    rw [hs5]
    show unpack_IB [fs / 16777216, fs / 65536 % 256, fs / 256 % 256, fs % 256, hl] = _
    show Except.ok (((fs / 16777216 * 256 + fs / 65536 % 256) * 256 +
      fs / 256 % 256) * 256 + fs % 256, hl) = _
    have harith : ((fs / 16777216 * 256 + fs / 65536 % 256) * 256 +
        fs / 256 % 256) * 256 + fs % 256 = fs := by omega
    rw [harith]
  have hs6 : pySlice buf
      ((metadata_size + name.length + fext.length + created.length + 5 : Nat) : Int)
      (-(hl : Int)) = middle := by
    rw [hshape5]
    exact pySlice_to_negEnd _ _ _ _ hl
      (by simp only [metadata_size, metadata_bytes, pack_u16be, pack_u32be,
        List.length_append, List.length_cons, List.length_nil])
      hd hhl0
  have hdn : pyDecodeUtf8 name = .ok name := by simp [pyDecodeUtf8, hnv]
  have hde : pyDecodeUtf8 fext = .ok fext := by simp [pyDecodeUtf8, hev]
  have hdc : pyDecodeUtf8 created = .ok created := by simp [pyDecodeUtf8, hcv]
  unfold unpack_metadata
  simp only [hu1, hs2, hdn, hs3, hde, hs4, hdc, hu5, hs6]

/-- A buffer accepted by `unpack_metadata` cannot be empty: the initial
`!HBB` unpack of `data[:4]` fails on an empty buffer. -/
theorem unpack_metadata_ne_nil {t : List Nat × List Nat × List Nat × Nat × Nat × List Nat}
    {data : List Nat} (h : unpack_metadata data = .ok t) : data ≠ [] := by
  intro hnil
  subst hnil
  rw [show unpack_metadata ([] : List Nat) = .error .structError from rfl] at h
  exact Except.noConfusion h

/-- C1: Round-trip — for every metadata tuple of UTF-8 strings whose byte
lengths fit u16/u8/u8, every payload whose length fits u32, and every
positive digest length fitting u8, `unpack_metadata` applied to the
client's serialized frame body (`encode_metadata` output ++ payload ++
SHAKE-128 digest of metadata‖payload) returns the original name,
extension and created string, the payload's length as `file_size`, the
digest length as `hash_length`, and `file_data` equal to the original
payload; the trailing `hash_length` bytes of the body are exactly the
digest.  `X` models the SHAKE-128 XOF with the library guarantee that its
output has the requested length. -/
theorem roundtrip_encode_unpack
    (X : List Nat → Nat → List Nat) (hX : ∀ d n, (X d n).length = n)
    (name fext created payload : List Nat) (hl : Nat)
    (hn : name.length < 65536) (he : fext.length < 256) (hc : created.length < 256)
    (hnv : utf8Valid name = true) (hev : utf8Valid fext = true)
    (hcv : utf8Valid created = true)
    (hp : payload.length < 4294967296) (hhl0 : 0 < hl) (hhl : hl < 256) :
    encode_metadata name fext created payload.length hl =
      .ok (metadata_bytes name fext created payload.length hl) ∧
    unpack_metadata (metadata_bytes name fext created payload.length hl ++ payload ++
        X (metadata_bytes name fext created payload.length hl ++ payload) hl) =
      .ok (name, fext, created, payload.length, hl, payload) ∧
    pySlice (metadata_bytes name fext created payload.length hl ++ payload ++
        X (metadata_bytes name fext created payload.length hl ++ payload) hl)
      (-(hl : Int))
      (((metadata_bytes name fext created payload.length hl ++ payload ++
        X (metadata_bytes name fext created payload.length hl ++ payload) hl).length :
        Nat) : Int) =
      X (metadata_bytes name fext created payload.length hl ++ payload) hl := by
  refine ⟨?_, ?_, ?_⟩
  · unfold encode_metadata
    rw [if_pos]
    exact ⟨hn, he, hc, hp, hhl⟩
  · exact unpack_metadata_of_frame name fext created payload
      (X (metadata_bytes name fext created payload.length hl ++ payload) hl)
      payload.length hl hnv hev hcv hp hhl0 (hX _ hl)
  · exact pySlice_negEnd _ _ hl (hX _ hl) hhl0

/-- Witness for C1: a concrete round-trip with name "a", empty extension,
created "c", payload `[1, 2]`, digest length 1 and a concrete XOF. -/
theorem roundtrip_encode_unpack_witness :
    unpack_metadata (metadata_bytes [97] [] [99] 2 1 ++ [1, 2] ++
        xofReplicate 7 (metadata_bytes [97] [] [99] 2 1 ++ [1, 2]) 1) =
      .ok ([97], [], [99], 2, 1, [1, 2]) :=
  (roundtrip_encode_unpack (xofReplicate 7)
    (fun d n => by simp [xofReplicate]) [97] [] [99] [1, 2] 1
    (by decide) (by decide) (by decide) (by decide) (by decide) (by decide)
    (by decide) (by decide) (by decide)).2.1

/-- C6 counterexample: `unpack_metadata` accepts a buffer whose declared
`file_size` is 5 yet returns a 3-byte `file_data` — the payload is not
delimited by the declared size field. -/
theorem size_field_counterexample :
    unpack_metadata sizeMismatchBuf = .ok ([65], [], [], 5, 1, [1, 2, 3]) ∧
    ([1, 2, 3] : List Nat).length ≠ 5 :=
  ⟨rfl, by decide⟩

/-- C6 (amended): for every well-framed buffer, `unpack_metadata` returns
as `file_data` exactly the region between the end of the metadata fields
and the start of the trailing `hash_length` bytes; its length is the
residual buffer length minus the metadata length and `hash_length`,
independent of the declared `size` field, which is returned but not used
to delimit the payload. -/
theorem payload_residual_delimited
    (name fext created middle digest : List Nat) (fs hl : Nat)
    (hnv : utf8Valid name = true) (hev : utf8Valid fext = true)
    (hcv : utf8Valid created = true)
    (hfs : fs < 4294967296) (hhl0 : 0 < hl) (hd : digest.length = hl) :
    unpack_metadata (metadata_bytes name fext created fs hl ++ middle ++ digest) =
      .ok (name, fext, created, fs, hl, middle) ∧
    middle.length =
      (metadata_bytes name fext created fs hl ++ middle ++ digest).length -
        (9 + name.length + fext.length + created.length) - hl := by
  refine ⟨unpack_metadata_of_frame name fext created middle digest fs hl
    hnv hev hcv hfs hhl0 hd, ?_⟩
  simp only [metadata_bytes, pack_u16be, pack_u32be, List.length_append,
    List.length_cons, List.length_nil]
  omega

/-- Witness for C6 (amended): declared size 5, actual middle region
`[1, 2, 3]`, digest `[9]` — `file_data` is the 3-byte middle region. -/
theorem payload_residual_delimited_witness :
    unpack_metadata (metadata_bytes [65] [] [] 5 1 ++ [1, 2, 3] ++ [9]) =
      .ok ([65], [], [], 5, 1, [1, 2, 3]) :=
  (payload_residual_delimited [65] [] [] [1, 2, 3] [9] 5 1
    (by decide) (by decide) (by decide) (by decide) (by decide) (by decide)).1

/-- C2 counterexample: a transport declaring 10 bytes that delivers 3 and
closes — `receive_data` returns the 3-byte partial buffer to the caller,
`run` passes it to `unpack_metadata` (which raises, so the server shuts
down), contradicting "the accumulated partial buffer is discarded, never
returned to the caller and never passed to unpack_metadata". -/
theorem premature_close_counterexample :
    receive_data recvClosesEarly = .gotData [1, 2, 3] ∧
    server_step (xofReplicate 7) st0 (.gotData [1, 2, 3]) = (shutdown st0, false) ∧
    unpack_metadata [1, 2, 3] = .error .structError :=
  ⟨rfl, rfl, rfl⟩

/-- C2 (amended): on premature closure `receive_data` returns whatever
the accumulation loop gathered — the partial buffer is returned to the
caller — and `run` passes every non-empty returned buffer on to
`unpack_metadata` (via `processFrame`); only an empty result takes the
shutdown-and-return path. -/
theorem premature_close_partial_passed
    (recvO : Nat → Nat → List Nat) (ds : Nat)
    (X : List Nat → Nat → List Nat) (st : ServerState) (received : List Nat)
    (h4 : unpack_I (recvO 0 4) = .ok ds) (hne : received ≠ []) :
    receive_data recvO = .gotData (receive_loop recvO ds (ds + 1) 1 []).2 ∧
    server_step X st (.gotData received) = processFrame X st received := by
  constructor
  · have hne4 : recvO 0 4 ≠ [] := by
      intro h0
      rw [h0] at h4
      exact Except.noConfusion h4
    simp only [receive_data]
    rw [if_neg hne4, h4]
  · simp only [server_step]
    rw [if_neg hne]

/-- Witness for C2 (amended): the 3-byte frame transport; the loop result
is returned and a non-empty buffer reaches `processFrame`. -/
theorem premature_close_partial_passed_witness :
    receive_data recvThree = .gotData (receive_loop recvThree 3 (3 + 1) 1 []).2 ∧
    server_step (xofReplicate 7) st0 (.gotData [8, 8, 8]) =
      processFrame (xofReplicate 7) st0 [8, 8, 8] :=
  premature_close_partial_passed recvThree 3 (xofReplicate 7) st0 [8, 8, 8]
    rfl (by decide)

/-- C8 counterexample: a transport delivering the 4 size bytes split 2+2 —
the single `recv(4)` returns only 2 bytes, the `!I` unpack raises, and
`receive_data` shuts the server down instead of collecting exactly 4 bytes
and decoding the correct `totalSize`. -/
theorem split_size_counterexample :
    receive_data recvSplitSize = .errorOut ∧
    unpack_I [0, 0] = .error .structError :=
  ⟨rfl, rfl⟩

/-- C8 (amended): `receive_data` reads the size field with one `recv(4)`
call and no exact-read loop; only when that single call returns all 4
bytes is the big-endian u32 decoded (then correctly) and the body loop
entered; a short non-empty read raises instead (see the counterexample). -/
theorem size_single_recv_decode
    (recvO : Nat → Nat → List Nat) (b0 b1 b2 b3 : Nat)
    (h4 : recvO 0 4 = [b0, b1, b2, b3]) :
    receive_data recvO = .gotData (receive_loop recvO
      (((b0 * 256 + b1) * 256 + b2) * 256 + b3)
      ((((b0 * 256 + b1) * 256 + b2) * 256 + b3) + 1) 1 []).2 := by
  simp only [receive_data, h4]
  rw [if_neg (by simp)]
  rfl

/-- Witness for C8 (amended): the 3-byte frame transport delivers
`[0,0,0,3]` in one read; the decoded size is 3. -/
theorem size_single_recv_decode_witness :
    receive_data recvThree = .gotData (receive_loop recvThree
      (((0 * 256 + 0) * 256 + 0) * 256 + 3)
      ((((0 * 256 + 0) * 256 + 0) * 256 + 3) + 1) 1 []).2 :=
  size_single_recv_decode recvThree 0 0 0 3 rfl

/-- C5: in every iteration of the accumulation loop of `receive_data`, the
number of bytes requested from the transport equals
`min(4096, data_size - len(received))` — hence never more than remain in
the current frame — and, for every transport that honours the socket
contract (never returning more bytes than requested), the accumulated
buffer's length never exceeds the declared `data_size` at any point of the
loop, including on exit. -/
theorem receive_loop_no_overread
    (recvO : Nat → Nat → List Nat) (ds : Nat)
    (hcon : ∀ i n, (recvO i n).length ≤ n) :
    ∀ fuel k acc, acc.length ≤ ds →
      (∀ p ∈ (receive_loop recvO ds fuel k acc).1,
        p.2 = min 4096 (ds - p.1) ∧ p.2 ≤ ds - p.1 ∧ p.1 ≤ ds) ∧
      (receive_loop recvO ds fuel k acc).2.length ≤ ds := by
  intro fuel
  induction fuel with
  | zero =>
    intro k acc hacc
    constructor
    · intro p hp
      simp [receive_loop] at hp
    · simpa [receive_loop] using hacc
  | succ n ih =>
    intro k acc hacc
    simp only [receive_loop]
    by_cases hlt : acc.length < ds
    · rw [if_pos hlt]
      by_cases hch : recvO k (min 4096 (ds - acc.length)) = []
      · rw [if_pos hch]
        constructor
        · intro p hp
          simp only [List.mem_singleton] at hp
          subst hp
          exact ⟨rfl, Nat.min_le_right _ _, Nat.le_of_lt hlt⟩
        · simpa using hacc
      · rw [if_neg hch]
        have hclen := hcon k (min 4096 (ds - acc.length))
        have hlen : (acc ++ recvO k (min 4096 (ds - acc.length))).length ≤ ds := by
          rw [List.length_append]
          omega
        have IH := ih (k + 1) (acc ++ recvO k (min 4096 (ds - acc.length))) hlen
        constructor
        · intro p hp
          simp only [List.mem_cons] at hp
          rcases hp with rfl | hp
          · exact ⟨rfl, Nat.min_le_right _ _, Nat.le_of_lt hlt⟩
          · exact IH.1 p hp
        · exact IH.2
    · rw [if_neg hlt]
      constructor
      · intro p hp
        simp at hp
      · simpa using hacc

/-- Witness for C5: a transport answering at most 3 bytes per read, a
7-byte frame; the accumulated buffer never exceeds the declared size. -/
theorem receive_loop_no_overread_witness :
    (receive_loop recvDribble 7 8 1 []).2.length ≤ 7 :=
  (receive_loop_no_overread recvDribble 7
    (fun i n => by simp only [recvDribble, List.length_replicate]; omega)
    8 1 [] (by simp)).2

/-- C4: for every received frame that parses and whose recomputed digest
over `received[:-hash_length]` differs from the transmitted trailing
digest `received[-hash_length:]`, the server's step leaves the state
unchanged — `write_file` is not invoked, no acknowledgment bytes are
appended to `sent`, `is_running` is untouched — and the connection loop
continues. -/
theorem integrity_mismatch_no_ack
    (X : List Nat → Nat → List Nat) (st : ServerState)
    (received fn fe cr : List Nat) (fs hl : Nat) (fd : List Nat)
    (hok : unpack_metadata received = .ok (fn, fe, cr, fs, hl, fd))
    (hne : server_compute_hash X (pySlice received 0 (-(hl : Int))) hl ≠
      pySlice received (-(hl : Int)) (received.length : Int)) :
    server_step X st (.gotData received) = (st, true) := by
  have hnil := unpack_metadata_ne_nil hok
  simp only [server_step]
  rw [if_neg hnil]
  simp only [processFrame, hok]
  rw [if_neg hne]

/-- Witness for C4: the frame with corrupted digest byte `[0]` against a
recomputed digest `[9]`; the state is unchanged. -/
theorem integrity_mismatch_no_ack_witness :
    server_step (xofReplicate 9) st0 (.gotData mismatchBuf) = (st0, true) :=
  integrity_mismatch_no_ack (xofReplicate 9) st0 mismatchBuf [65] [] [] 1 1 [7]
    rfl (by decide)

/-- Python `data[-0:]` is the whole sequence: with `hash_length = 0` the
digest extraction returns the entire buffer. -/
theorem pySlice_negzero_full (l : List Nat) :
    pySlice l (-((0 : Nat) : Int)) (l.length : Int) = l := by
  have h1 : pyIdx l.length (l.length : Int) = l.length := by
    rw [pyIdx_ofNat, Nat.min_self]
  have h2 : pyIdx l.length (-((0 : Nat) : Int)) = 0 := by
    unfold pyIdx
    split <;> omega
  unfold pySlice
  rw [h1, h2, List.take_length, List.drop_zero]

/-- Python `data[:-0]` is empty: with `hash_length = 0` the hashed region
is the empty byte string. -/
theorem pySlice_negzero_empty (l : List Nat) :
    pySlice l 0 (-((0 : Nat) : Int)) = [] := by
  have h2 : pyIdx l.length (-((0 : Nat) : Int)) = 0 := by
    unfold pyIdx
    split <;> omega
  unfold pySlice
  rw [h2, List.take_zero]
  simp

/-- C10: for every non-empty received frame whose declared `hash_length`
is 0, the digest extraction `received[-hash_length:]` yields the entire
buffer and the hashed region `received[:-hash_length]` is empty, so the
recomputed digest (the empty byte string, since the XOF output has the
requested length 0) differs from the extracted digest; verification always
fails: no acknowledgment is sent, no file is persisted, the state is
unchanged — even though the frame was transmitted uncorrupted. -/
theorem zero_hash_length_rejected
    (X : List Nat → Nat → List Nat) (st : ServerState)
    (received fn fe cr : List Nat) (fs : Nat) (fd : List Nat)
    (hX : ∀ d n, (X d n).length = n)
    (hok : unpack_metadata received = .ok (fn, fe, cr, fs, 0, fd)) :
    pySlice received (-((0 : Nat) : Int)) (received.length : Int) = received ∧
    pySlice received 0 (-((0 : Nat) : Int)) = [] ∧
    server_step X st (.gotData received) = (st, true) := by
  have hnil := unpack_metadata_ne_nil hok
  refine ⟨pySlice_negzero_full received, pySlice_negzero_empty received, ?_⟩
  have hcomp : server_compute_hash X (pySlice received 0 (-((0 : Nat) : Int))) 0 = [] := by
    refine List.length_eq_zero.mp ?_
    simpa [server_compute_hash, HashObj.digest, HashObj.update, shake_128_new]
      using hX ([] ++ pySlice received 0 (-((0 : Nat) : Int))) 0
  simp only [server_step]
  rw [if_neg hnil]
  simp only [processFrame, hok]
  rw [hcomp, pySlice_negzero_full received]
  rw [if_neg (fun h => hnil h.symm)]

/-- Witness for C10: the structurally complete frame with `hash_length`
field 0 is rejected with no state change. -/
theorem zero_hash_length_rejected_witness :
    server_step (xofReplicate 3) st0 (.gotData zeroHashBuf) = (st0, true) :=
  (zero_hash_length_rejected (xofReplicate 3) st0 zeroHashBuf [65] [] [] 0 []
    (fun d n => by simp [xofReplicate]) rfl).2.2

/-- C3 counterexample: a buffer whose declared `filename_length` (50) is
inconsistent with the 5-byte buffer — deserialization fails and no
acknowledgment is sent, but instead of continuing to the next frame
attempt, the server's exception handler shuts the listening process down
(`is_running` goes from `true` to `false` and the loop exits). -/
theorem malformed_frame_counterexample :
    unpack_metadata malformedBuf = .error .structError ∧
    server_step (xofReplicate 7) st0 (.gotData malformedBuf) = (shutdown st0, false) ∧
    (shutdown st0).is_running = false ∧ st0.is_running = true :=
  ⟨rfl, rfl, rfl, rfl⟩

/-- C3 (amended): for every received buffer on which `unpack_metadata`
raises, the frame is rejected with no acknowledgment written back and no
file persisted, and the exception propagates to `run`'s handler, which
shuts the server down: the connection loop and the listening process
terminate rather than continuing to the next frame attempt. -/
theorem malformed_frame_shutdown
    (X : List Nat → Nat → List Nat) (st : ServerState) (received : List Nat)
    (e : PyErr) (hne : received ≠ [])
    (herr : unpack_metadata received = .error e) :
    server_step X st (.gotData received) = (shutdown st, false) ∧
    (shutdown st).sent = st.sent ∧ (shutdown st).files = st.files ∧
    (shutdown st).is_running = false := by
  refine ⟨?_, rfl, rfl, rfl⟩
  simp only [server_step]
  rw [if_neg hne]
  simp only [processFrame, herr]

/-- Witness for C3 (amended): a 4-byte buffer whose declared lengths read
past its end. -/
theorem malformed_frame_shutdown_witness :
    server_step (xofReplicate 7) st0 (.gotData [0, 9, 0, 0]) = (shutdown st0, false) ∧
    (shutdown st0).sent = st0.sent ∧ (shutdown st0).files = st0.files ∧
    (shutdown st0).is_running = false :=
  malformed_frame_shutdown (xofReplicate 7) st0 [0, 9, 0, 0] .structError
    (by decide) rfl

/-- C7 (code bug): when a peer closes its connection (the `recv` of the
size field returns no bytes) or an in-flight frame errors, `run` calls
`self.shutdown()` and returns — `is_running` becomes `false`, the accept
loop exits and the listening process stops, instead of tearing down only
that connection and continuing to accept new ones as the method's own
docstring states. -/
theorem disconnect_shuts_down_server :
    receive_data (fun _ _ => []) = .sizeFail ∧
    server_step (xofReplicate 7) st0 .sizeFail = (shutdown st0, false) ∧
    server_step (xofReplicate 7) st0 .errorOut = (shutdown st0, false) ∧
    (shutdown st0).is_running = false ∧ st0.is_running = true :=
  ⟨rfl, rfl, rfl, rfl, rfl⟩

/-- C9: the client's `compute_hash` (with its configured `hash_length`)
and the server's `compute_hash(data, hash_length)` are extensionally equal
— both feed the same bytes to a fresh SHAKE-128 object and request the
same output length — and, by the library guarantee, both return the
`n`-byte digest of `data`.  Determinism is inherent: both sides are pure
functions of `(data, n)`. -/
theorem compute_hash_agreement
    (X : List Nat → Nat → List Nat) (data : List Nat) (n : Nat)
    (hX : ∀ d m, (X d m).length = m) :
    client_compute_hash X n data = server_compute_hash X data n ∧
    server_compute_hash X data n = X data n ∧
    (client_compute_hash X n data).length = n := by
  refine ⟨rfl, ?_, ?_⟩
  · simp [server_compute_hash, HashObj.digest, HashObj.update, shake_128_new]
  · simp [client_compute_hash, HashObj.digest, HashObj.update, shake_128_new, hX]

/-- Witness for C9: both sides agree on a concrete input and XOF. -/
theorem compute_hash_agreement_witness :
    client_compute_hash (xofReplicate 5) 2 [1, 2, 3] =
      server_compute_hash (xofReplicate 5) [1, 2, 3] 2 ∧
    server_compute_hash (xofReplicate 5) [1, 2, 3] 2 = xofReplicate 5 [1, 2, 3] 2 ∧
    (client_compute_hash (xofReplicate 5) 2 [1, 2, 3]).length = 2 :=
  compute_hash_agreement (xofReplicate 5) [1, 2, 3] 2
    (fun d m => by simp [xofReplicate])
